import Mathlib

/-!
Verification of the Stripe gateway adapter
(`packages/payments-plugin/src/stripe/stripe.service.ts`).

The service is a thin adapter between the commerce system and the Stripe
client SDK.  We embed it shallowly: external collaborators (the database
repository, the Stripe SDK, the logger) are modelled as an explicit
environment supplying their responses, and every operation returns its
result together with a trace of the observable effects it performed
(order re-fetches, gateway calls, customer saves, log entries).
-/

namespace StripeService

/-- Plugin configuration (`StripePluginOptions` from `./types`). -/
structure StripePluginOptions where
  apiKey : String
  webhookSigningSecret : String
  storeCustomersInStripe : Bool
deriving DecidableEq

/-- The slice of the request context the service reads:
`ctx.activeUserId` and `ctx.channel.token`. -/
structure RequestContext where
  activeUserId : Option String
  channelToken : String
deriving DecidableEq

/-- The extensible custom-field bag on a Customer, holding the cached
Stripe customer identifier. -/
structure CustomerCustomFields where
  stripeCustomerId : Option String
deriving DecidableEq

/-- The slice of a Customer record the service reads and writes. -/
structure Customer where
  id : String
  emailAddress : String
  firstName : String
  lastName : String
  customFields : CustomerCustomFields
deriving DecidableEq

/-- The slice of an Order the service reads.  `customer` is the lazily
loaded relation: it is `none` unless the order was fetched with
`relations: [customer]`. -/
structure Order where
  id : String
  code : String
  currencyCode : String
  totalWithTax : Int
  customer : Option Customer
deriving DecidableEq

/-- A remote (Stripe-side) customer object, as returned by
`stripe.customers.list` and `stripe.customers.create`. -/
structure StripeCustomer where
  id : String
deriving DecidableEq

/-- JavaScript truthiness of an optional string: `undefined`/`null` and
the empty string are falsy, every other string is truthy. -/
def jsTruthy : Option String → Bool
  | none => false
  | some s => !(s == "")

/-- JavaScript `Math.round`: nearest integer, halves toward positive
infinity. -/
def mathRound (q : ℚ) : ℤ := ⌊q + 1 / 2⌋

/-- The ISO 4217 zero-decimal currency codes (currencies without a
fractional subunit), as in the CLDR data behind `Intl.NumberFormat` and
in the Stripe documentation cited by the source. -/
def zeroDecimalCurrencies : List String :=
  ["BIF", "CLP", "DJF", "GNF", "JPY", "KMF", "KRW", "MGA", "PYG", "RWF",
   "UGX", "VND", "VUV", "XAF", "XOF", "XPF"]

/-- Model of `currencyHasFractionPart`: the source formats the reference amount
123.45 with `Intl.NumberFormat` for the given currency and checks whether
the formatted parts contain a fraction part.  `Intl.NumberFormat` is a
platform capability external to the repository; it emits a fraction part
exactly for the currencies that have a fractional subunit, i.e. all but
the zero-decimal codes. -/
def currencyHasFractionPart (currencyCode : String) : Bool :=
  !(zeroDecimalCurrencies.contains currencyCode)

/-- The metadata attached to a payment-intent creation request. -/
structure PaymentIntentMetadata where
  channelToken : String
  orderId : String
  orderCode : String
deriving DecidableEq

/-- The request sent to `stripe.paymentIntents.create`. -/
structure PaymentIntentRequest where
  amount : Int
  currency : String
  customer : Option String
  automaticPaymentMethodsEnabled : Bool
  metadata : PaymentIntentMetadata
deriving DecidableEq

/-- A call made to the Stripe gateway client. -/
inductive GatewayCall where
  | listCustomers (email : String)
  | createCustomer (email : String) (name : String)
  | paymentIntentsCreate (req : PaymentIntentRequest)
deriving DecidableEq

/-- Severity of a log entry. -/
inductive LogLevel where
  | warn
  | info
deriving DecidableEq

/-- A message sent to the diagnostic sink. -/
structure LogEntry where
  level : LogLevel
  message : String
deriving DecidableEq

/-- A save of a Customer record through the repository; `reload` mirrors
the `reload` option passed to `save`. -/
structure SaveRecord where
  customer : Customer
  reload : Bool
deriving DecidableEq

/-- The observable effects an operation performed, in order within each
channel: database order re-fetches (by order id), gateway calls,
customer saves, log output. -/
structure Effects where
  orderFetches : List String
  gatewayCalls : List GatewayCall
  saves : List SaveRecord
  logs : List LogEntry
deriving DecidableEq

/-- No effects. -/
def Effects.empty : Effects :=
  { orderFetches := [], gatewayCalls := [], saves := [], logs := [] }

/-- The payment-intent creation requests among the gateway calls of a
trace. -/
def Effects.paymentIntentRequests (e : Effects) : List PaymentIntentRequest :=
  e.gatewayCalls.filterMap fun c =>
    match c with
    | GatewayCall.paymentIntentsCreate req => some req
    | _ => none

/-- The environment: responses of the external collaborators consumed by
`createPaymentIntent` and `getStripeCustomerId`.

* `orderWithCustomer` — result of the repository re-fetch
  `findOne(activeOrder.id, relations: [customer])`;
* `stripeCustomersData` — the `data` array of `stripe.customers.list`;
* `createdStripeCustomer` — result of `stripe.customers.create`;
* `paymentIntentClientSecret` — the `client_secret` of the object
  returned by `stripe.paymentIntents.create` (`none` models `null`). -/
structure Env where
  orderWithCustomer : Option Order
  stripeCustomersData : List StripeCustomer
  createdStripeCustomer : StripeCustomer
  paymentIntentClientSecret : Option String
deriving DecidableEq

/-- Embedding of `getStripeCustomerId(ctx, activeOrder)`: re-fetches the order with
its customer relation; returns `undefined` when order or customer is
missing; short-circuits to a truthy cached `stripeCustomerId`; otherwise
looks the customer up on Stripe by email, takes the first match or
creates a new Stripe customer (logging the creation), stores the id on
`customer.customFields.stripeCustomerId` and saves the customer with
`reload: false`. -/
def getStripeCustomerId (env : Env) (ctx : RequestContext) (activeOrder : Order) :
    Option String × Effects :=
  let fetchOnly : Effects :=
    { orderFetches := [activeOrder.id], gatewayCalls := [], saves := [], logs := [] }
  match env.orderWithCustomer with
  | none => (none, fetchOnly)
  | some order =>
    match order.customer with
    | none => (none, fetchOnly)
    | some customer =>
      if jsTruthy customer.customFields.stripeCustomerId then
        (customer.customFields.stripeCustomerId, fetchOnly)
      else
        match env.stripeCustomersData with
        | firstStripeCustomer :: _ =>
          let stripeCustomerId := firstStripeCustomer.id
          let updated : Customer :=
            { customer with customFields := { stripeCustomerId := some stripeCustomerId } }
          (some stripeCustomerId,
           { orderFetches := [activeOrder.id],
             gatewayCalls := [GatewayCall.listCustomers customer.emailAddress],
             saves := [{ customer := updated, reload := false }],
             logs := [] })
        | [] =>
          let stripeCustomerId := env.createdStripeCustomer.id
          let updated : Customer :=
            { customer with customFields := { stripeCustomerId := some stripeCustomerId } }
          (some stripeCustomerId,
           { orderFetches := [activeOrder.id],
             gatewayCalls :=
               [GatewayCall.listCustomers customer.emailAddress,
                GatewayCall.createCustomer customer.emailAddress
                  (customer.firstName ++ " " ++ customer.lastName)],
             saves := [{ customer := updated, reload := false }],
             logs := [{ level := LogLevel.info,
                        message := "Created Stripe Customer record for customerId "
                          ++ customer.id }] })

/-- Embedding of `createPaymentIntent(ctx, order)`: optionally resolves a Stripe
customer id, normalizes the amount for zero-decimal currencies, issues
the payment-intent creation request, warns when the response carries no
client secret, and returns `client_secret ?? undefined`. -/
def createPaymentIntent (options : StripePluginOptions) (env : Env)
    (ctx : RequestContext) (order : Order) : Option String × Effects :=
  let customerStep : Option String × Effects :=
    if options.storeCustomersInStripe && jsTruthy ctx.activeUserId then
      getStripeCustomerId env ctx order
    else (none, Effects.empty)
  let customerId := customerStep.1
  let amountInMinorUnits : Int :=
    if currencyHasFractionPart order.currencyCode then order.totalWithTax
    else mathRound ((order.totalWithTax : ℚ) / 100)
  let req : PaymentIntentRequest :=
    { amount := amountInMinorUnits,
      currency := order.currencyCode.toLower,
      customer := customerId,
      automaticPaymentMethodsEnabled := true,
      metadata :=
        { channelToken := ctx.channelToken,
          orderId := order.id,
          orderCode := order.code } }
  let clientSecret := env.paymentIntentClientSecret
  let warnLogs : List LogEntry :=
    if jsTruthy clientSecret then []
    else [{ level := LogLevel.warn,
            message := "Payment intent creation for order " ++ order.code
              ++ " did not return client secret" }]
  (clientSecret,
   { orderFetches := customerStep.2.orderFetches,
     gatewayCalls := customerStep.2.gatewayCalls ++ [GatewayCall.paymentIntentsCreate req],
     saves := customerStep.2.saves,
     logs := customerStep.2.logs ++ warnLogs })

/-- A Stripe refund object returned by `stripe.refunds.create`. -/
structure StripeRefund where
  id : String
  paymentIntent : String
  amount : Int
deriving DecidableEq

/-- A Stripe error, as thrown by the SDK client. -/
structure StripeError where
  message : String
deriving DecidableEq

/-- Behaviour of the SDK call `stripe.refunds.create`; a thrown
exception is modelled as `Except.error`. -/
structure RefundEnv where
  refundsCreate : String → Int → Except StripeError StripeRefund

/-- The value `createRefund(paymentIntentId, amount)` returns: either
the refund object or the caught error value (`Stripe.Refund |
Stripe.StripeError`). -/
inductive RefundResult where
  | refund (r : StripeRefund)
  | stripeError (e : StripeError)
deriving DecidableEq

/-- Embedding of `createRefund`: calls `stripe.refunds.create` inside `try`; returns
the refund on success and the caught exception as a value on failure.
A total function: no exception escapes. -/
def createRefund (env : RefundEnv) (paymentIntentId : String) (amount : Int) :
    RefundResult :=
  match env.refundsCreate paymentIntentId amount with
  | Except.ok refund => RefundResult.refund refund
  | Except.error e => RefundResult.stripeError e

/-- A structured webhook event parsed from a payload. -/
structure StripeEvent where
  eventType : String
  data : String
deriving DecidableEq

/-- The error thrown by the SDK when webhook signature verification
fails. -/
structure SignatureVerificationError where
  message : String
deriving DecidableEq

/-- Modelled from the spec: the Stripe SDK capability
`stripe.webhooks.constructEvent` (external to the repository) verifies a
raw payload against a signature and a signing secret, throwing a
verification failure on rejection and parsing the payload into a
structured event on acceptance.  Verification and parsing are abstract
parameters. -/
structure StripeWebhooks where
  verifies : String → String → String → Bool
  parse : String → StripeEvent

/-- The SDK call: ok with the parsed event exactly when the
payload/signature/secret triple verifies, error otherwise. -/
def sdkConstructEvent (w : StripeWebhooks) (payload signature secret : String) :
    Except SignatureVerificationError StripeEvent :=
  if w.verifies payload signature secret then Except.ok (w.parse payload)
  else Except.error { message := "Webhook signature verification failed" }

/-- Embedding of `constructEventFromPayload(payload, signature)`: delegates to the SDK
with the configured webhook signing secret; does not catch the
verification failure. -/
def constructEventFromPayload (options : StripePluginOptions) (w : StripeWebhooks)
    (payload signature : String) : Except SignatureVerificationError StripeEvent :=
  sdkConstructEvent w payload signature options.webhookSigningSecret

/-- Helper: `getStripeCustomerId` never issues a payment-intent creation call. -/
theorem getStripeCustomerId_no_pi (env : Env) (ctx : RequestContext) (a : Order) :
    Effects.paymentIntentRequests (getStripeCustomerId env ctx a).2 = [] := by
  rcases h1 : env.orderWithCustomer with _ | order
  · simp [getStripeCustomerId, h1, Effects.paymentIntentRequests]
  rcases h2 : order.customer with _ | customer
  · simp [getStripeCustomerId, h1, h2, Effects.paymentIntentRequests]
  by_cases h3 : jsTruthy customer.customFields.stripeCustomerId
  · simp [getStripeCustomerId, h1, h2, h3, Effects.paymentIntentRequests]
  rcases h4 : env.stripeCustomersData with _ | ⟨c, rest⟩
  · simp [getStripeCustomerId, h1, h2, h3, h4, Effects.paymentIntentRequests]
  · simp [getStripeCustomerId, h1, h2, h3, h4, Effects.paymentIntentRequests]

/-- The single payment-intent request `createPaymentIntent` sends,
in full. -/
theorem createPaymentIntent_piRequests_eq (options : StripePluginOptions)
    (env : Env) (ctx : RequestContext) (order : Order) :
    (createPaymentIntent options env ctx order).2.paymentIntentRequests
      = [{ amount := if currencyHasFractionPart order.currencyCode then order.totalWithTax
                     else mathRound ((order.totalWithTax : ℚ) / 100),
           currency := order.currencyCode.toLower,
           customer := (if options.storeCustomersInStripe && jsTruthy ctx.activeUserId then
                          getStripeCustomerId env ctx order
                        else (none, Effects.empty)).1,
           automaticPaymentMethodsEnabled := true,
           metadata := { channelToken := ctx.channelToken, orderId := order.id,
                         orderCode := order.code } }] := by
  have hno := getStripeCustomerId_no_pi env ctx order
  by_cases h : options.storeCustomersInStripe && jsTruthy ctx.activeUserId
  · simp only [createPaymentIntent, h, if_true, Effects.paymentIntentRequests] at *
    simp only [List.filterMap_append, hno]
    simp
  · simp only [createPaymentIntent, h, if_false, Bool.false_eq_true,
      Effects.paymentIntentRequests] at *
    simp [Effects.empty]

/-- On a remainder of exactly half a major unit, `Math.round` of the
scaled-down total rounds up to the next integer. -/
theorem mathRound_half (t : ℤ) (h : t % 100 = 50) :
    mathRound ((t : ℚ) / 100) = t / 100 + 1 := by
  obtain ⟨k, rfl⟩ : ∃ k, t = 100 * k + 50 := ⟨t / 100, by omega⟩
  have hdiv : (100 * k + 50) / 100 = k := by omega
  rw [hdiv]
  unfold mathRound
  have h3 : (((100 * k + 50 : ℤ) : ℚ) / 100 + 1 / 2) = ((k + 1 : ℤ) : ℚ) := by
    push_cast
    ring
  rw [h3, Int.floor_intCast]

/-- Sample configuration with customer syncing enabled. -/
def sampleOptions : StripePluginOptions :=
  { apiKey := "sk_test", webhookSigningSecret := "whsec_1", storeCustomersInStripe := true }

/-- Sample context with an authenticated user. -/
def sampleCtx : RequestContext :=
  { activeUserId := some "user_1", channelToken := "channel-token" }

/-- Sample environment where the order re-fetch finds nothing. -/
def sampleEnv : Env :=
  { orderWithCustomer := none, stripeCustomersData := [],
    createdStripeCustomer := { id := "cus_new" },
    paymentIntentClientSecret := some "cs_secret" }

/-- Sample customer without a cached Stripe id. -/
def sampleCustomerNoId : Customer :=
  { id := "c1", emailAddress := "ada@example.com", firstName := "Ada",
    lastName := "Lovelace", customFields := { stripeCustomerId := none } }

/-- Sample customer with a cached Stripe id. -/
def sampleCustomerCached : Customer :=
  { id := "c2", emailAddress := "grace@example.com", firstName := "Grace",
    lastName := "Hopper", customFields := { stripeCustomerId := some "cus_9" } }

/-- Sample USD order, customer relation not loaded. -/
def sampleOrder : Order :=
  { id := "41", code := "O-41", currencyCode := "USD", totalWithTax := 1999,
    customer := none }

/-- C1: For every order, createPaymentIntent sends exactly one
payment-intent request, whose amount is the stored totalWithTax when the
currency has a fractional subunit, and round(totalWithTax / 100) when
the currency is zero-decimal; concretely, stored total 100000 with JPY
gives gateway amount 1000 and stored total 1999 with USD gives gateway
amount 1999. -/
theorem createPaymentIntent_amount (options : StripePluginOptions) (env : Env)
    (ctx : RequestContext) (order : Order) :
    ((createPaymentIntent options env ctx order).2.paymentIntentRequests).map
        PaymentIntentRequest.amount
      = [if currencyHasFractionPart order.currencyCode then order.totalWithTax
         else mathRound ((order.totalWithTax : ℚ) / 100)]
    ∧ ((createPaymentIntent options env ctx
          { id := "1", code := "O-JPY", currencyCode := "JPY",
            totalWithTax := 100000, customer := none }).2.paymentIntentRequests).map
        PaymentIntentRequest.amount = [1000]
    ∧ ((createPaymentIntent options env ctx
          { id := "2", code := "O-USD", currencyCode := "USD",
            totalWithTax := 1999, customer := none }).2.paymentIntentRequests).map
        PaymentIntentRequest.amount = [1999] := by
  refine ⟨?_, ?_, ?_⟩
  · rw [createPaymentIntent_piRequests_eq]
    simp
  · rw [createPaymentIntent_piRequests_eq]
    have hz : currencyHasFractionPart "JPY" = false := by decide
    simp only [hz, Bool.false_eq_true, if_false, List.map_cons, List.map_nil]
    norm_num [mathRound]
  · rw [createPaymentIntent_piRequests_eq]
    have hu : currencyHasFractionPart "USD" = true := by decide
    simp [hu]

/-- C10: For every zero-decimal-currency order whose stored totalWithTax
leaves remainder exactly 50 modulo 100, the gateway-facing amount rounds
upward to the next integer. -/
theorem zeroDecimal_half_rounds_up (options : StripePluginOptions) (env : Env)
    (ctx : RequestContext) (order : Order)
    (hcur : currencyHasFractionPart order.currencyCode = false)
    (hrem : order.totalWithTax % 100 = 50) :
    ((createPaymentIntent options env ctx order).2.paymentIntentRequests).map
        PaymentIntentRequest.amount = [order.totalWithTax / 100 + 1] := by
  rw [createPaymentIntent_piRequests_eq]
  simp [hcur, mathRound_half order.totalWithTax hrem]

/-- Witness for C10: a JPY order with stored total 150 yields gateway
amount 2, not 1. -/
theorem zeroDecimal_half_rounds_up_witness :
    ((createPaymentIntent sampleOptions sampleEnv sampleCtx
        { id := "3", code := "O-JPY-150", currencyCode := "JPY",
          totalWithTax := 150, customer := none }).2.paymentIntentRequests).map
      PaymentIntentRequest.amount = [2] :=
  (zeroDecimal_half_rounds_up sampleOptions sampleEnv sampleCtx
    { id := "3", code := "O-JPY-150", currencyCode := "JPY",
      totalWithTax := 150, customer := none } (by decide) (by decide)).trans (by decide)

/-- C2: when the re-fetched customer already carries a cached (truthy)
stripeCustomerId, getStripeCustomerId returns exactly that value with no
gateway call, no save and no log — only the order re-fetch — and
createPaymentIntent in the same environment performs no customer save,
so the cached identifier is never overwritten. -/
theorem cached_stripeCustomerId_short_circuits (options : StripePluginOptions)
    (env : Env) (ctx : RequestContext) (activeOrder order : Order)
    (customer : Customer) (sid : String)
    (horder : env.orderWithCustomer = some order)
    (hcust : order.customer = some customer)
    (hid : customer.customFields.stripeCustomerId = some sid)
    (hne : sid ≠ "") :
    getStripeCustomerId env ctx activeOrder
      = (some sid,
         { orderFetches := [activeOrder.id], gatewayCalls := [], saves := [],
           logs := [] })
    ∧ (createPaymentIntent options env ctx activeOrder).2.saves = [] := by
  have hmain : getStripeCustomerId env ctx activeOrder
      = (some sid,
         { orderFetches := [activeOrder.id], gatewayCalls := [], saves := [],
           logs := [] }) := by
    simp [getStripeCustomerId, horder, hcust, hid, jsTruthy, hne]
  refine ⟨hmain, ?_⟩
  by_cases h : options.storeCustomersInStripe && jsTruthy ctx.activeUserId
  · simp [createPaymentIntent, h, hmain]
  · simp [createPaymentIntent, h, Effects.empty]

/-- Witness for C2: concrete environment with a cached id "cus_9". -/
theorem cached_stripeCustomerId_short_circuits_witness :
    getStripeCustomerId
        { orderWithCustomer := some
            { id := "41", code := "O-41", currencyCode := "USD",
              totalWithTax := 1999, customer := some sampleCustomerCached },
          stripeCustomersData := [], createdStripeCustomer := { id := "cus_new" },
          paymentIntentClientSecret := some "cs_secret" }
        sampleCtx sampleOrder
      = (some "cus_9",
         { orderFetches := ["41"], gatewayCalls := [], saves := [], logs := [] })
    ∧ (createPaymentIntent sampleOptions
        { orderWithCustomer := some
            { id := "41", code := "O-41", currencyCode := "USD",
              totalWithTax := 1999, customer := some sampleCustomerCached },
          stripeCustomersData := [], createdStripeCustomer := { id := "cus_new" },
          paymentIntentClientSecret := some "cs_secret" }
        sampleCtx sampleOrder).2.saves = [] := by
  have h := cached_stripeCustomerId_short_circuits sampleOptions
    { orderWithCustomer := some
        { id := "41", code := "O-41", currencyCode := "USD",
          totalWithTax := 1999, customer := some sampleCustomerCached },
      stripeCustomersData := [], createdStripeCustomer := { id := "cus_new" },
      paymentIntentClientSecret := some "cs_secret" }
    sampleCtx sampleOrder
    { id := "41", code := "O-41", currencyCode := "USD", totalWithTax := 1999,
      customer := some sampleCustomerCached }
    sampleCustomerCached "cus_9" rfl rfl (by decide) (by decide)
  simpa [sampleOrder] using h

/-- Sample re-fetched order whose customer has no cached Stripe id. -/
def sampleOrderWithNoIdCustomer : Order :=
  { id := "41", code := "O-41", currencyCode := "USD", totalWithTax := 1999,
    customer := some sampleCustomerNoId }

/-- Sample environment: customer without cached id, Stripe lookup finds
no match. -/
def sampleEnvLookupMiss : Env :=
  { orderWithCustomer := some sampleOrderWithNoIdCustomer, stripeCustomersData := [],
    createdStripeCustomer := { id := "cus_new" },
    paymentIntentClientSecret := some "cs_secret" }

/-- Sample environment: customer without cached id, Stripe lookup finds
two matches. -/
def sampleEnvLookupHit : Env :=
  { orderWithCustomer := some sampleOrderWithNoIdCustomer,
    stripeCustomersData := [{ id := "cus_7" }, { id := "cus_8" }],
    createdStripeCustomer := { id := "cus_new" },
    paymentIntentClientSecret := some "cs_secret" }

/-- C4: with no cached id and an empty gateway lookup result,
getStripeCustomerId issues the lookup and exactly one create-customer
call carrying the local email and "first last" name, returns the newly
created id, persists it on the customer with a non-reloading save, and
emits an informational trace. -/
theorem lookup_miss_creates_customer (env : Env) (ctx : RequestContext)
    (activeOrder order : Order) (customer : Customer)
    (horder : env.orderWithCustomer = some order)
    (hcust : order.customer = some customer)
    (hnoid : jsTruthy customer.customFields.stripeCustomerId = false)
    (hempty : env.stripeCustomersData = []) :
    getStripeCustomerId env ctx activeOrder
      = (some env.createdStripeCustomer.id,
         { orderFetches := [activeOrder.id],
           gatewayCalls :=
             [GatewayCall.listCustomers customer.emailAddress,
              GatewayCall.createCustomer customer.emailAddress
                (customer.firstName ++ " " ++ customer.lastName)],
           saves := [{ customer := { customer with customFields :=
                         { stripeCustomerId := some env.createdStripeCustomer.id } },
                       reload := false }],
           logs := [{ level := LogLevel.info,
                      message := "Created Stripe Customer record for customerId "
                        ++ customer.id }] }) := by
  simp [getStripeCustomerId, horder, hcust, hnoid, hempty]

/-- Witness for C4 at a concrete environment. -/
theorem lookup_miss_creates_customer_witness :
    getStripeCustomerId sampleEnvLookupMiss sampleCtx sampleOrder
      = (some "cus_new",
         { orderFetches := ["41"],
           gatewayCalls :=
             [GatewayCall.listCustomers "ada@example.com",
              GatewayCall.createCustomer "ada@example.com" "Ada Lovelace"],
           saves := [{ customer :=
                         { id := "c1", emailAddress := "ada@example.com",
                           firstName := "Ada", lastName := "Lovelace",
                           customFields := { stripeCustomerId := some "cus_new" } },
                       reload := false }],
           logs := [{ level := LogLevel.info,
                      message := "Created Stripe Customer record for customerId c1" }] }) :=
  (lookup_miss_creates_customer sampleEnvLookupMiss sampleCtx sampleOrder
    sampleOrderWithNoIdCustomer sampleCustomerNoId rfl rfl (by decide) rfl).trans
    (by decide)

/-- C5: with no cached id and a non-empty gateway lookup result,
getStripeCustomerId uses the id of the first match, issues no create call and
no log, and persists the id on the customer with a non-reloading save. -/
theorem lookup_hit_uses_first_match (env : Env) (ctx : RequestContext)
    (activeOrder order : Order) (customer : Customer)
    (firstStripeCustomer : StripeCustomer) (rest : List StripeCustomer)
    (horder : env.orderWithCustomer = some order)
    (hcust : order.customer = some customer)
    (hnoid : jsTruthy customer.customFields.stripeCustomerId = false)
    (hdata : env.stripeCustomersData = firstStripeCustomer :: rest) :
    getStripeCustomerId env ctx activeOrder
      = (some firstStripeCustomer.id,
         { orderFetches := [activeOrder.id],
           gatewayCalls := [GatewayCall.listCustomers customer.emailAddress],
           saves := [{ customer := { customer with customFields :=
                         { stripeCustomerId := some firstStripeCustomer.id } },
                       reload := false }],
           logs := [] }) := by
  simp [getStripeCustomerId, horder, hcust, hnoid, hdata]

/-- Witness for C5 at a concrete environment with two matches. -/
theorem lookup_hit_uses_first_match_witness :
    getStripeCustomerId sampleEnvLookupHit sampleCtx sampleOrder
      = (some "cus_7",
         { orderFetches := ["41"],
           gatewayCalls := [GatewayCall.listCustomers "ada@example.com"],
           saves := [{ customer :=
                         { id := "c1", emailAddress := "ada@example.com",
                           firstName := "Ada", lastName := "Lovelace",
                           customFields := { stripeCustomerId := some "cus_7" } },
                       reload := false }],
           logs := [] }) :=
  (lookup_hit_uses_first_match sampleEnvLookupHit sampleCtx sampleOrder
    sampleOrderWithNoIdCustomer sampleCustomerNoId { id := "cus_7" } [{ id := "cus_8" }]
    rfl rfl (by decide) rfl).trans (by decide)

/-- C9: when the re-fetched order is absent or carries no customer,
getStripeCustomerId returns none having performed only the re-fetch (no
gateway call, no save, no log), and createPaymentIntent still issues the
payment-intent request with no customer attached, returning the gateway
client secret. -/
theorem missing_order_or_customer_defensive (options : StripePluginOptions)
    (env : Env) (ctx : RequestContext) (order : Order)
    (h : env.orderWithCustomer = none ∨
         ∃ o, env.orderWithCustomer = some o ∧ o.customer = none) :
    getStripeCustomerId env ctx order
      = (none, { orderFetches := [order.id], gatewayCalls := [], saves := [],
                 logs := [] })
    ∧ (∃ req, (createPaymentIntent options env ctx order).2.gatewayCalls
          = [GatewayCall.paymentIntentsCreate req] ∧ req.customer = none)
    ∧ (createPaymentIntent options env ctx order).1 = env.paymentIntentClientSecret := by
  have hg : getStripeCustomerId env ctx order
      = (none, { orderFetches := [order.id], gatewayCalls := [], saves := [],
                 logs := [] }) := by
    rcases h with h1 | ⟨o, ho, hoc⟩
    · simp [getStripeCustomerId, h1]
    · simp [getStripeCustomerId, ho, hoc]
  refine ⟨hg, ?_, rfl⟩
  by_cases hs : options.storeCustomersInStripe && jsTruthy ctx.activeUserId
  · refine ⟨{ amount := if currencyHasFractionPart order.currencyCode then
                 order.totalWithTax else mathRound ((order.totalWithTax : ℚ) / 100),
               currency := order.currencyCode.toLower, customer := none,
               automaticPaymentMethodsEnabled := true,
               metadata := { channelToken := ctx.channelToken, orderId := order.id,
                             orderCode := order.code } }, ?_, rfl⟩
    simp [createPaymentIntent, hs, hg]
  · refine ⟨{ amount := if currencyHasFractionPart order.currencyCode then
                 order.totalWithTax else mathRound ((order.totalWithTax : ℚ) / 100),
               currency := order.currencyCode.toLower, customer := none,
               automaticPaymentMethodsEnabled := true,
               metadata := { channelToken := ctx.channelToken, orderId := order.id,
                             orderCode := order.code } }, ?_, rfl⟩
    simp [createPaymentIntent, hs, Effects.empty]

/-- Witness for C9: the re-fetch finds no order. -/
theorem missing_order_or_customer_defensive_witness :
    getStripeCustomerId sampleEnv sampleCtx sampleOrder
      = (none, { orderFetches := ["41"], gatewayCalls := [], saves := [],
                 logs := [] })
    ∧ (∃ req, (createPaymentIntent sampleOptions sampleEnv sampleCtx
          sampleOrder).2.gatewayCalls
          = [GatewayCall.paymentIntentsCreate req] ∧ req.customer = none)
    ∧ (createPaymentIntent sampleOptions sampleEnv sampleCtx sampleOrder).1
        = some "cs_secret" :=
  missing_order_or_customer_defensive sampleOptions sampleEnv sampleCtx sampleOrder
    (Or.inl rfl)

/-- Sample configuration with customer syncing disabled. -/
def sampleOptionsNoSync : StripePluginOptions :=
  { apiKey := "sk_test", webhookSigningSecret := "whsec_1",
    storeCustomersInStripe := false }

/-- Sample environment where the gateway returns no client secret. -/
def sampleEnvNoSecret : Env :=
  { orderWithCustomer := none, stripeCustomersData := [],
    createdStripeCustomer := { id := "cus_new" },
    paymentIntentClientSecret := none }

/-- C6: when customer syncing is off or the context has no authenticated
user, createPaymentIntent performs no order re-fetch and no save, and
its only gateway call is the payment-intent request, which carries no
customer id. -/
theorem no_sync_no_customer_path (options : StripePluginOptions) (env : Env)
    (ctx : RequestContext) (order : Order)
    (h : options.storeCustomersInStripe = false ∨ jsTruthy ctx.activeUserId = false) :
    (createPaymentIntent options env ctx order).2.orderFetches = []
    ∧ (createPaymentIntent options env ctx order).2.saves = []
    ∧ ∃ req, (createPaymentIntent options env ctx order).2.gatewayCalls
          = [GatewayCall.paymentIntentsCreate req] ∧ req.customer = none := by
  have hs : (options.storeCustomersInStripe && jsTruthy ctx.activeUserId) = false := by
    rcases h with h | h <;> simp [h]
  refine ⟨?_, ?_, ?_⟩
  · simp [createPaymentIntent, hs, Effects.empty]
  · simp [createPaymentIntent, hs, Effects.empty]
  · refine ⟨{ amount := if currencyHasFractionPart order.currencyCode then
                 order.totalWithTax else mathRound ((order.totalWithTax : ℚ) / 100),
               currency := order.currencyCode.toLower, customer := none,
               automaticPaymentMethodsEnabled := true,
               metadata := { channelToken := ctx.channelToken, orderId := order.id,
                             orderCode := order.code } }, ?_, rfl⟩
    simp [createPaymentIntent, hs, Effects.empty]

/-- Witness for C6: syncing disabled. -/
theorem no_sync_no_customer_path_witness :
    (createPaymentIntent sampleOptionsNoSync sampleEnvLookupHit sampleCtx
        sampleOrder).2.orderFetches = []
    ∧ (createPaymentIntent sampleOptionsNoSync sampleEnvLookupHit sampleCtx
        sampleOrder).2.saves = []
    ∧ ∃ req, (createPaymentIntent sampleOptionsNoSync sampleEnvLookupHit sampleCtx
          sampleOrder).2.gatewayCalls
          = [GatewayCall.paymentIntentsCreate req] ∧ req.customer = none :=
  no_sync_no_customer_path sampleOptionsNoSync sampleEnvLookupHit sampleCtx
    sampleOrder (Or.inl rfl)

/-- C7: when the gateway response has no client secret,
createPaymentIntent logs a warning and returns none; when a secret is
present it is returned. -/
theorem missing_client_secret_behavior (options : StripePluginOptions) (env : Env)
    (ctx : RequestContext) (order : Order) :
    (env.paymentIntentClientSecret = none →
        (createPaymentIntent options env ctx order).1 = none
        ∧ { level := LogLevel.warn,
            message := "Payment intent creation for order " ++ order.code
              ++ " did not return client secret" }
            ∈ (createPaymentIntent options env ctx order).2.logs)
    ∧ ∀ s, env.paymentIntentClientSecret = some s →
        (createPaymentIntent options env ctx order).1 = some s := by
  constructor
  · intro hnone
    refine ⟨hnone, ?_⟩
    simp [createPaymentIntent, hnone, jsTruthy]
  · intro s hs
    exact hs

/-- Witness for C7: a response without a secret warns and returns none;
one with a secret returns it. -/
theorem missing_client_secret_behavior_witness :
    ((createPaymentIntent sampleOptions sampleEnvNoSecret sampleCtx sampleOrder).1
        = none
      ∧ { level := LogLevel.warn,
          message := "Payment intent creation for order " ++ sampleOrder.code
            ++ " did not return client secret" }
          ∈ (createPaymentIntent sampleOptions sampleEnvNoSecret sampleCtx
              sampleOrder).2.logs)
    ∧ (createPaymentIntent sampleOptions sampleEnv sampleCtx sampleOrder).1
        = some "cs_secret" :=
  ⟨(missing_client_secret_behavior sampleOptions sampleEnvNoSecret sampleCtx
      sampleOrder).1 rfl,
   (missing_client_secret_behavior sampleOptions sampleEnv sampleCtx
      sampleOrder).2 "cs_secret" rfl⟩

/-- C3: createRefund catches the exception thrown by the gateway refund
call and returns it as a value, never propagating; on success it returns
the refund object.  Totality of `createRefund` is the no-propagation
guarantee. -/
theorem createRefund_returns_error_value (env : RefundEnv)
    (paymentIntentId : String) (amount : Int) :
    (∀ e, env.refundsCreate paymentIntentId amount = Except.error e →
        createRefund env paymentIntentId amount = RefundResult.stripeError e)
    ∧ ∀ r, env.refundsCreate paymentIntentId amount = Except.ok r →
        createRefund env paymentIntentId amount = RefundResult.refund r := by
  constructor
  · intro e he
    simp [createRefund, he]
  · intro r hr
    simp [createRefund, hr]

/-- Sample refund object. -/
def sampleRefund : StripeRefund := { id := "re_1", paymentIntent := "pi_1", amount := 500 }

/-- Gateway refund call that succeeds. -/
def sampleRefundEnvOk : RefundEnv := { refundsCreate := fun _ _ => Except.ok sampleRefund }

/-- Gateway refund call that throws. -/
def sampleRefundEnvThrows : RefundEnv :=
  { refundsCreate := fun _ _ => Except.error { message := "card_declined" } }

/-- Witness for C3: the thrown error comes back as a value, the
successful refund comes back as the refund object. -/
theorem createRefund_returns_error_value_witness :
    createRefund sampleRefundEnvThrows "pi_1" 500
        = RefundResult.stripeError { message := "card_declined" }
    ∧ createRefund sampleRefundEnvOk "pi_1" 500 = RefundResult.refund sampleRefund :=
  ⟨(createRefund_returns_error_value sampleRefundEnvThrows "pi_1" 500).1 _ rfl,
   (createRefund_returns_error_value sampleRefundEnvOk "pi_1" 500).2 _ rfl⟩

/-- C8: constructEventFromPayload returns the parsed event exactly when
the SDK verification accepts the payload/signature pair against the
configured webhook signing secret, and propagates a verification failure
otherwise. -/
theorem constructEventFromPayload_verification (options : StripePluginOptions)
    (w : StripeWebhooks) (payload signature : String) :
    (w.verifies payload signature options.webhookSigningSecret = true →
        constructEventFromPayload options w payload signature
          = Except.ok (w.parse payload))
    ∧ (w.verifies payload signature options.webhookSigningSecret = false →
        constructEventFromPayload options w payload signature
          = Except.error { message := "Webhook signature verification failed" }) := by
  constructor <;> intro h <;> simp [constructEventFromPayload, sdkConstructEvent, h]

/-- Sample webhook verifier: a signature is valid when it equals the
secret followed by the payload. -/
def sampleWebhooks : StripeWebhooks :=
  { verifies := fun payload signature secret => signature == secret ++ payload,
    parse := fun payload => { eventType := "payment_intent.succeeded", data := payload } }

/-- Witness for C8: a matching triple parses, a tampered signature is
rejected. -/
theorem constructEventFromPayload_verification_witness :
    constructEventFromPayload sampleOptions sampleWebhooks "p" "whsec_1p"
        = Except.ok { eventType := "payment_intent.succeeded", data := "p" }
    ∧ constructEventFromPayload sampleOptions sampleWebhooks "p" "bad"
        = Except.error { message := "Webhook signature verification failed" } :=
  ⟨(constructEventFromPayload_verification sampleOptions sampleWebhooks "p"
      "whsec_1p").1 (by decide),
   (constructEventFromPayload_verification sampleOptions sampleWebhooks "p"
      "bad").2 (by decide)⟩

end StripeService
